import Mathlib

/-!
Shallow embedding of `src/plang.py` (hivi6/pLang): a small expression-language
pipeline consisting of a lexer, a recursive-descent parser and a tree-walking
interpreter.  Python's mutable cursor state is threaded explicitly; `while`
loops whose progress is not structural become fuel-indexed recursions, where
the fuel passed at each entry point strictly exceeds the possible number of
loop iterations (each iteration consumes at least one character or token).
Uncaught Python exceptions of the interpreter become an explicit error type.
-/

namespace PLang

/-- Source line 5: `WHITESPACES = " \n\t"`. -/
def WHITESPACES : List Char := [' ', '\n', '\t']

/-- Source line 6: `DIGITS = "1234567890"`. -/
def DIGITS : List Char := ['1', '2', '3', '4', '5', '6', '7', '8', '9', '0']

/-- Source lines 12-18: `Position(filename, srcText, idx, ln, col)`. -/
structure Position where
  filename : String
  srcText : String
  idx : Nat
  ln : Nat
  col : Nat
deriving Repr, DecidableEq

/-- Source lines 20-35: `Position.advance` increments `idx` and `col`; on a
newline it additionally increments `ln` and resets `col` to 1. -/
def Position.advance (p : Position) (currentChar : Char) : Position :=
  let p1 : Position := { p with idx := p.idx + 1, col := p.col + 1 }
  if currentChar = '\n' then { p1 with ln := p1.ln + 1, col := 1 } else p1

/-- Source lines 37-38: `Position.copy` builds a fresh `Position` with the
same fields. -/
def Position.copy (p : Position) : Position :=
  { filename := p.filename, srcText := p.srcText, idx := p.idx, ln := p.ln, col := p.col }

/-- Source lines 47-52: `Error(errName, errDetails, startPos, endPos)`.
The subclasses only fix `errName`, so one structure suffices. -/
structure Error where
  errName : String
  errDetails : String
  startPos : Position
  endPos : Position
deriving Repr, DecidableEq

/-- Source lines 59-61: `IllegalCharError`. -/
def IllegalCharError (errDetails : String) (startPos endPos : Position) : Error :=
  { errName := "IllegalCharError", errDetails := errDetails,
    startPos := startPos, endPos := endPos }

/-- Source lines 63-65: `SyntaxError`. -/
def SyntaxError (errDetails : String) (startPos endPos : Position) : Error :=
  { errName := "SyntaxError", errDetails := errDetails,
    startPos := startPos, endPos := endPos }

/-- Source lines 75-83: the token-type constants `TT_INT` .. `TT_EOF`. -/
inductive TokenType where
  | INT | STR | PLUS | MINUS | MULTIPLY | DIVIDE | LPAREN | RPAREN | EOF
deriving Repr, DecidableEq

/-- Source lines 85-90: `Token(type, lexical, startPos, endPos)`. -/
structure Token where
  type : TokenType
  lexical : String
  startPos : Position
  endPos : Position
deriving Repr, DecidableEq

/-- Source lines 128-135: the loop of `Lexer.getInt`: greedily consume a
maximal digit run, accumulating the lexeme; returns the final cursor, the
remaining input and the lexeme. -/
def getIntLoop (pos : Position) (rest : List Char) (lexical : String) :
    Position × List Char × String :=
  match rest with
  | [] => (pos, [], lexical)
  | c :: cs =>
    if c ∈ DIGITS then getIntLoop (pos.advance c) cs (lexical.push c)
    else (pos, c :: cs, lexical)

/-- Result of the string-scanning loop: either the closing quote was found
(`ok`, carrying lexeme, cursor and remaining input) or the input ended
(`err`, carrying the constructed error plus cursor and remaining input so the
caller's state is still known -- in the source this state lives in `self`). -/
inductive StrScan where
  | ok (lexical : String) (pos : Position) (rest : List Char)
  | err (e : Error) (pos : Position) (rest : List Char)
deriving Repr, DecidableEq

/-- Source lines 137-155: the loop of `Lexer.getStr` after the opening quote
has been consumed.  `prevPos` is the local variable of `getStr` (updated to
the current cursor before each consumed character); on end of input it
returns the `IllegalCharError` the source constructs at lines 148-152. -/
def getStrLoop (prevPos pos : Position) (rest : List Char) (lexical : String) : StrScan :=
  match rest with
  | [] =>
    .err (IllegalCharError "expected '\"' but instead reached eof." prevPos pos.copy) pos []
  | c :: cs =>
    if c = '"' then .ok (lexical.push c) (pos.advance c) cs
    else getStrLoop pos.copy (pos.advance c) cs (lexical.push c)

/-- Dummy position used only as `getD` default where the source would raise
an uncaught exception (never reached on lexer-produced inputs). -/
def nullPos : Position := { filename := "", srcText := "", idx := 0, ln := 0, col := 0 }

/-- Error returned only when the fuel of a loop runs out; unreachable for the
fuel supplied at the entry points. -/
def OutOfFuel : Error :=
  { errName := "OutOfFuel", errDetails := "", startPos := nullPos, endPos := nullPos }

/-- Source lines 161-201: the main loop of `Lexer.getTokens`.  One fuel unit
per loop iteration; each iteration consumes at least one character, so
`srcText.length + 1` fuel suffices.  NOTE the string branch: source line 174
reads `None, err` (a bare tuple expression, not a `return`), so the error
produced by `getStr` is discarded and the loop continues; this embedding
reproduces that faithfully. -/
def getTokensLoop : Nat → Position → List Char → List Token → Except Error (List Token)
  | 0, _, _, _ => .error OutOfFuel
  | fuel + 1, pos, rest, tokens =>
    match rest with
    | [] => .ok (tokens ++ [{ type := .EOF, lexical := "", startPos := pos.copy, endPos := pos.copy }])
    | c :: cs =>
      let prevPos := pos.copy
      if c ∈ WHITESPACES then
        getTokensLoop fuel (pos.advance c) cs tokens
      else if c ∈ DIGITS then
        match getIntLoop pos (c :: cs) "" with
        | (pos1, rest1, lexical) =>
          getTokensLoop fuel pos1 rest1
            (tokens ++ [{ type := .INT, lexical := lexical,
                          startPos := prevPos.copy, endPos := pos1.copy }])
      else if c = '"' then
        match getStrLoop prevPos.copy (pos.advance c) cs (String.push "" c) with
        | .ok lexical pos1 rest1 =>
          getTokensLoop fuel pos1 rest1
            (tokens ++ [{ type := .STR, lexical := lexical,
                          startPos := prevPos.copy, endPos := pos1.copy }])
        | .err _ pos1 rest1 =>
          -- source line 174: `None, err` has no `return`; the error is dropped
          getTokensLoop fuel pos1 rest1 tokens
      else if c = '+' then
        getTokensLoop fuel (pos.advance c) cs
          (tokens ++ [{ type := .PLUS, lexical := "+",
                        startPos := prevPos.copy, endPos := (pos.advance c).copy }])
      else if c = '-' then
        getTokensLoop fuel (pos.advance c) cs
          (tokens ++ [{ type := .MINUS, lexical := "-",
                        startPos := prevPos.copy, endPos := (pos.advance c).copy }])
      else if c = '*' then
        getTokensLoop fuel (pos.advance c) cs
          (tokens ++ [{ type := .MULTIPLY, lexical := "*",
                        startPos := prevPos.copy, endPos := (pos.advance c).copy }])
      else if c = '/' then
        getTokensLoop fuel (pos.advance c) cs
          (tokens ++ [{ type := .DIVIDE, lexical := "/",
                        startPos := prevPos.copy, endPos := (pos.advance c).copy }])
      else if c = '(' then
        getTokensLoop fuel (pos.advance c) cs
          (tokens ++ [{ type := .LPAREN, lexical := "(",
                        startPos := prevPos.copy, endPos := (pos.advance c).copy }])
      else if c = ')' then
        getTokensLoop fuel (pos.advance c) cs
          (tokens ++ [{ type := .RPAREN, lexical := ")",
                        startPos := prevPos.copy, endPos := (pos.advance c).copy }])
      else
        .error (IllegalCharError ("character '" ++ String.push "" c ++ "' is unexpected.")
          prevPos.copy (pos.advance c).copy)

/-- Source lines 99-103 and 161-201: constructing `Lexer(filename, srcText)`
(cursor at index 0, line 1, column 1) and running `getTokens`. -/
def tokenize (filename srcText : String) : Except Error (List Token) :=
  getTokensLoop (srcText.length + 1)
    { filename := filename, srcText := srcText, idx := 0, ln := 1, col := 1 }
    srcText.data []

/-- Source lines 207-228: the AST node variants (`LiteralNode`, `BinaryNode`).
The `startPos`/`endPos` of a node are derived from its token / children in the
source constructors and are recomputed on demand here. -/
inductive AstNode where
  | literal (literal : Token)
  | binary (left : AstNode) (op : Token) (right : AstNode)
deriving Repr, DecidableEq

/-- Dummy token used only as `getD` default where the source would raise an
uncaught exception (indexing an empty list / `advance` returning `None`);
never reached on lexer-produced token lists, which always end in `EOF`. -/
def nullToken : Token := { type := .EOF, lexical := "", startPos := nullPos, endPos := nullPos }

/-- Source lines 234-239: the `Parser` state (`tokens` plus cursor `idx`). -/
structure ParserState where
  filename : String
  srcText : String
  tokens : List Token
  idx : Nat
deriving Repr, DecidableEq

/-- Source lines 243-244: `Parser.isEnd`. -/
def ParserState.isEnd (s : ParserState) : Bool := s.idx ≥ s.tokens.length - 1

/-- Source lines 246-249: `Parser.peek`; `self.tokens[-1]` on an empty list
would raise in Python, modelled by the `getD` default. -/
def ParserState.peek (s : ParserState) : Token :=
  if s.isEnd then s.tokens.getLastD nullToken else s.tokens.getD s.idx nullToken

/-- Source lines 251-255: `Parser.advance` returns `None` at the end,
otherwise the peeked token, bumping the cursor. -/
def ParserState.advance (s : ParserState) : Option Token × ParserState :=
  if s.isEnd then (none, s)
  else (some s.peek, { s with idx := s.idx + 1 })

/-- Source lines 283-286: `Parser.primary`.  Note the source has NO branch
for `TT_LPAREN`: only integer and string literals are accepted.  When
`advance` returns `None` (impossible on lexer-produced input since the last
token is `EOF`, which fails the type test) the source would crash building
`LiteralNode(None)`; the `getD` default covers that dead branch. -/
def Parser.primary (s : ParserState) : Except Error AstNode × ParserState :=
  if s.peek.type = .INT ∨ s.peek.type = .STR then
    match s.advance with
    | (tok?, s1) => (.ok (.literal (tok?.getD s.peek)), s1)
  else
    (.error (SyntaxError "Expected a primary" s.peek.startPos s.peek.endPos), s)

/-- Source lines 275-279: the `while` loop of `Parser.factor`, folding
`Star`/`Slash` chains left-associatively.  One fuel unit per iteration; each
iteration advances the cursor by at least one token. -/
def Parser.factorLoop : Nat → AstNode → ParserState → Except Error AstNode × ParserState
  | 0, _, s => (.error OutOfFuel, s)
  | fuel + 1, left, s =>
    if s.isEnd = false ∧ (s.peek.type = .MULTIPLY ∨ s.peek.type = .DIVIDE) then
      match s.advance with
      | (op?, s1) =>
        match Parser.primary s1 with
        | (.error e, s2) => (.error e, s2)
        | (.ok right, s2) => Parser.factorLoop fuel (.binary left (op?.getD nullToken) right) s2
    else (.ok left, s)

/-- Source lines 271-281: `Parser.factor`. -/
def Parser.factor (fuel : Nat) (s : ParserState) : Except Error AstNode × ParserState :=
  match Parser.primary s with
  | (.error e, s1) => (.error e, s1)
  | (.ok left, s1) => Parser.factorLoop fuel left s1

/-- Source lines 263-268: the `while` loop of `Parser.term`, folding
`Plus`/`Minus` chains left-associatively. -/
def Parser.termLoop : Nat → AstNode → ParserState → Except Error AstNode × ParserState
  | 0, _, s => (.error OutOfFuel, s)
  | fuel + 1, left, s =>
    if s.isEnd = false ∧ (s.peek.type = .PLUS ∨ s.peek.type = .MINUS) then
      match s.advance with
      | (op?, s1) =>
        match Parser.factor fuel s1 with
        | (.error e, s2) => (.error e, s2)
        | (.ok right, s2) => Parser.termLoop fuel (.binary left (op?.getD nullToken) right) s2
    else (.ok left, s)

/-- Source lines 259-269: `Parser.term`. -/
def Parser.term (fuel : Nat) (s : ParserState) : Except Error AstNode × ParserState :=
  match Parser.factor fuel s with
  | (.error e, s1) => (.error e, s1)
  | (.ok left, s1) => Parser.termLoop fuel left s1

/-- Source lines 290-297: `Parser.parse`: parse a `term`, then require the
cursor to be at the end, else a `SyntaxError` spanning from the current token
to the end of input.  (The source also prints the offending token; output is
irrelevant to the returned value.)  Fuel `tokens.length + 1` exceeds the
possible number of loop iterations, each of which consumes a token. -/
def Parser.parse (s : ParserState) : Except Error AstNode × ParserState :=
  match Parser.term (s.tokens.length + 1) s with
  | (.error e, s1) => (.error e, s1)
  | (.ok ast, s1) =>
    if s1.isEnd = false then
      (.error (SyntaxError "Something went wrong."
        s1.peek.startPos (s1.tokens.getLastD nullToken).endPos), s1)
    else (.ok ast, s1)

/-- Source lines 234-239 and 290-297: constructing
`Parser(filename, srcText, tokens)` (cursor 0) and running `parse`. -/
def parseTokens (filename srcText : String) (tokens : List Token) : Except Error AstNode :=
  (Parser.parse { filename := filename, srcText := srcText, tokens := tokens, idx := 0 }).1

/-- The runtime values the interpreter can store in `self.exprRes`:
Python ints and strs. -/
inductive Value where
  | int (n : Int)
  | str (s : String)
deriving Repr, DecidableEq

/-- Uncaught Python exceptions the interpreter can raise: `TypeError` from an
unsupported operand combination, `ZeroDivisionError` from `//` by zero, and
the explicit `raise Exception` of source line 342. -/
inductive RuntimeErr where
  | typeError
  | zeroDivisionError
  | noSupport (lexical : String)
deriving Repr, DecidableEq

/-- Source line 327: `int(ast.literal.lexical)` -- base-10 value of the
digit-only lexemes `getInt` produces. -/
def intOfLexeme (s : String) : Int :=
  s.data.foldl (fun acc c => acc * 10 + Int.ofNat (c.toNat - '0'.toNat)) 0

/-- Source line 329: `ast.literal.lexical[1:-1]` -- drop the first and last
character. -/
def stripFirstLast (s : String) : String := String.mk (s.data.drop 1).dropLast

/-- Python `str * int` repetition (`"ab" * 3`); negative counts give `""`. -/
def strRepeat (s : String) (n : Int) : String := String.join (List.replicate n.toNat s)

/-- Python `+` on the value combinations reachable at source line 338:
int addition, str concatenation; anything else raises `TypeError`. -/
def pyAdd : Option Value → Option Value → Except RuntimeErr (Option Value)
  | some (.int a), some (.int b) => .ok (some (.int (a + b)))
  | some (.str a), some (.str b) => .ok (some (.str (a ++ b)))
  | _, _ => .error .typeError

/-- Python `-` at source line 339: int subtraction only. -/
def pySub : Option Value → Option Value → Except RuntimeErr (Option Value)
  | some (.int a), some (.int b) => .ok (some (.int (a - b)))
  | _, _ => .error .typeError

/-- Python `*` at source line 340: int multiplication and str repetition. -/
def pyMul : Option Value → Option Value → Except RuntimeErr (Option Value)
  | some (.int a), some (.int b) => .ok (some (.int (a * b)))
  | some (.str a), some (.int b) => .ok (some (.str (strRepeat a b)))
  | some (.int a), some (.str b) => .ok (some (.str (strRepeat b a)))
  | _, _ => .error .typeError

/-- Python `//` at source line 341: floor division on ints, raising
`ZeroDivisionError` on a zero divisor; `Int.fdiv` is Lean's
floor (toward negative infinity) division, matching Python `//`. -/
def pyFloorDiv : Option Value → Option Value → Except RuntimeErr (Option Value)
  | some (.int a), some (.int b) =>
    if b = 0 then .error .zeroDivisionError else .ok (some (.int (Int.fdiv a b)))
  | _, _ => .error .typeError

/-- Source lines 315-342: `Interpreter.visit` dispatching on the node kind.
The mutable `self.exprRes` (initially `None`) is threaded as the second
argument and the new value returned.  `visitLiteralNode` (325-329) leaves
`exprRes` unchanged when the token is neither `INT` nor `STR` (no branch
taken).  `visitBinaryNode` (331-342) evaluates left then right (the right
visit starts from the left result, as `self.exprRes` does), then applies the
operator.  An error (uncaught exception) in a subtree aborts the whole
evaluation, as an exception would. -/
def visit : AstNode → Option Value → Except RuntimeErr (Option Value)
  | .literal tok, exprRes =>
    if tok.type = .INT then .ok (some (.int (intOfLexeme tok.lexical)))
    else if tok.type = .STR then .ok (some (.str (stripFirstLast tok.lexical)))
    else .ok exprRes
  | .binary left op right, exprRes =>
    match visit left exprRes with
    | .error e => .error e
    | .ok leftRes =>
      match visit right leftRes with
      | .error e => .error e
      | .ok rightRes =>
        if op.type = .PLUS then pyAdd leftRes rightRes
        else if op.type = .MINUS then pySub leftRes rightRes
        else if op.type = .MULTIPLY then pyMul leftRes rightRes
        else if op.type = .DIVIDE then pyFloorDiv leftRes rightRes
        else .error (.noSupport op.lexical)

/-- Outcome of a full pipeline invocation, in place of the printing the
source `run` does at each stage. -/
inductive RunOutcome where
  | lexError (e : Error)
  | parseError (e : Error)
  | runtimeError (e : RuntimeErr)
  | value (v : Option Value)
deriving Repr, DecidableEq

/-- Source lines 348-367: `run(filename, srcText)`: tokenize, parse,
interpret, stopping at the first error (`Interpreter()` starts with
`exprRes = None`). -/
def run (filename srcText : String) : RunOutcome :=
  match tokenize filename srcText with
  | .error e => .lexError e
  | .ok tokens =>
    match parseTokens filename srcText tokens with
    | .error e => .parseError e
    | .ok ast =>
      match visit ast none with
      | .error e => .runtimeError e
      | .ok v => .value v

/-- Position-free view of an AST used to state tree-shape properties:
literal lexemes and operator token types only. -/
inductive SExpr where
  | lit (lexical : String)
  | bin (left : SExpr) (op : TokenType) (right : SExpr)
deriving Repr, DecidableEq

/-- Erase positions from an AST, keeping shape, lexemes and operators. -/
def eraseAst : AstNode → SExpr
  | .literal tok => .lit tok.lexical
  | .binary l op r => .bin (eraseAst l) op.type (eraseAst r)

/-- Tokenize-then-parse: the front half of `run` (source lines 352-360). -/
def parseSource (filename srcText : String) : Except Error AstNode := do
  parseTokens filename srcText (← tokenize filename srcText)

/-- Heap of Python `Position` objects, used to express aliasing/frame
properties: references are indices into the list, so distinct indices are
distinct objects.  `heapCopy` models `p2 = p1.copy()` (source line 38): it
reads the fields of the object at `r` and allocates a NEW object with the
same fields, returning the new heap and the new reference. -/
def heapCopy (h : List Position) (r : Nat) : List Position × Nat :=
  (h ++ [(h.getD r nullPos).copy], h.length)

/-- In-place mutation `p.advance(c)` (source lines 20-35) on the heap:
the object at reference `r` is overwritten with its advanced fields. -/
def heapAdvance (h : List Position) (r : Nat) (c : Char) : List Position :=
  h.set r ((h.getD r nullPos).advance c)

deriving instance DecidableEq for Except

/-! ## Supporting lemmas -/

/-- `Position.copy` rebuilds all fields, so as a value it equals its input;
what the aliasing claims are about is that it is a fresh object, which the
heap model above captures. -/
theorem Position.copy_eq (p : Position) : p.copy = p := rfl

theorem string_push_data (s : String) (c : Char) : (s.push c).data = s.data ++ [c] := rfl

theorem string_append_data (s t : String) : (s ++ t).data = s.data ++ t.data := rfl

theorem string_length_data (s : String) : s.length = s.data.length := rfl

theorem foldl_push_data (l : List Char) (acc : String) :
    (l.foldl String.push acc).data = acc.data ++ l := by
  induction l generalizing acc with
  | nil => simp
  | cons c cs ih => simp [ih, string_push_data]

/-- The string-scanning loop, run on content with no double quote followed by
the closing quote, consumes everything up to and including that quote,
accumulating the content into the lexeme and advancing the cursor over it. -/
theorem getStrLoop_closes (cs : List Char) (h : ∀ c ∈ cs, c ≠ '"') :
    ∀ (pv pos : Position) (lex : String),
      getStrLoop pv pos (cs ++ ['"']) lex =
        .ok ((cs.foldl String.push lex).push '"') ((cs.foldl Position.advance pos).advance '"') [] := by
  induction cs with
  | nil => intro pv pos lex; simp [getStrLoop]
  | cons c cs ih =>
    intro pv pos lex
    have hc : ¬ (c = '"') := h c (List.mem_cons_self c cs)
    simp only [List.cons_append, getStrLoop, if_neg hc, List.foldl_cons, Position.copy_eq]
    exact ih (fun x hx => h x (List.mem_cons_of_mem c hx)) _ _ _

/-- Unfolding step of the lexer loop at end of input: append the EOF token. -/
theorem getTokensLoop_nil (fuel : Nat) (pos : Position) (tokens : List Token) :
    getTokensLoop (fuel + 1) pos [] tokens = .ok (tokens ++ [Token.mk .EOF "" pos pos]) := rfl

/-- Unfolding step of the lexer loop at a double quote: scan the string; on
success append the String token, on failure DROP the error and continue
(source line 174 lacks the `return`). -/
theorem getTokensLoop_quote (fuel : Nat) (pos : Position) (cs : List Char) (tokens : List Token) :
    getTokensLoop (fuel + 1) pos ('"' :: cs) tokens =
      match getStrLoop pos (pos.advance '"') cs (String.push "" '"') with
      | .ok lexical pos1 rest1 =>
        getTokensLoop fuel pos1 rest1 (tokens ++ [Token.mk .STR lexical pos pos1])
      | .err _ pos1 rest1 => getTokensLoop fuel pos1 rest1 tokens := rfl

/-- Unfolding step of the lexer loop at a whitespace character: advance the
cursor, emit nothing. -/
theorem getTokensLoop_ws_step (fuel : Nat) (pos : Position) (c : Char) (cs : List Char)
    (tokens : List Token) (hc : c ∈ WHITESPACES) :
    getTokensLoop (fuel + 1) pos (c :: cs) tokens = getTokensLoop fuel (pos.advance c) cs tokens := by
  have h3 : c = ' ' ∨ c = '\n' ∨ c = '\t' := by simpa [WHITESPACES] using hc
  rcases h3 with h | h | h <;> subst h <;> rfl

/-- The lexer loop on whitespace-only input consumes everything and returns
only the EOF token at the final cursor position. -/
theorem getTokensLoop_whitespace (ws : List Char) (h : ∀ c ∈ ws, c ∈ WHITESPACES) :
    ∀ (fuel : Nat) (pos : Position) (tokens : List Token), ws.length < fuel →
      getTokensLoop fuel pos ws tokens =
        .ok (tokens ++ [Token.mk .EOF ""
          (ws.foldl Position.advance pos) (ws.foldl Position.advance pos)]) := by
  induction ws with
  | nil =>
    intro fuel pos tokens hf
    cases fuel with
    | zero => exact absurd hf (Nat.not_lt_zero _)
    | succ f => exact getTokensLoop_nil f pos tokens
  | cons c cs ih =>
    intro fuel pos tokens hf
    cases fuel with
    | zero => exact absurd hf (Nat.not_lt_zero _)
    | succ f =>
      rw [getTokensLoop_ws_step f pos c cs tokens (h c (List.mem_cons_self c cs))]
      rw [List.foldl_cons]
      exact ih (fun x hx => h x (List.mem_cons_of_mem c hx)) f (pos.advance c) tokens
        (Nat.lt_of_succ_lt_succ hf)

/-- Parsing a token list consisting of a single EOF token fails in `primary`
with a `SyntaxError` spanning exactly that token. -/
theorem parse_single_eof (f src : String) (tok : Token) (h : tok.type = .EOF) :
    parseTokens f src [tok] = .error (SyntaxError "Expected a primary" tok.startPos tok.endPos) := by
  simp [parseTokens, Parser.parse, Parser.term, Parser.factor, Parser.primary,
    ParserState.peek, ParserState.isEnd, ParserState.advance, h]

/-! ## Claim theorems -/

/-- Claim C1: the claim says the parser's primary rule accepts a
parenthesized subexpression and that `"(2 + 3) * 4"` evaluates to 20.  On
the code this FAILS: `Parser.primary` has no `LeftParen` branch, so the full
pipeline on `"(2 + 3) * 4"` stops with a `SyntaxError` "Expected a primary"
spanning the opening parenthesis, and never produces the value 20.  This
theorem evaluates the code at the failing input. -/
theorem c1_paren_primary_rejected :
    run "<t>" "(2 + 3) * 4" = .parseError (SyntaxError "Expected a primary"
      (Position.mk "<t>" "(2 + 3) * 4" 0 1 1) (Position.mk "<t>" "(2 + 3) * 4" 1 1 2)) ∧
    run "<t>" "(2 + 3) * 4" ≠ .value (some (.int 20)) := by decide

/-- Claim C2: the claim says tokenizing a source with an unterminated string
(`"\"abc"`) returns a failure of kind UnterminatedString.  On the code this
FAILS: `getStr` does construct an error (of class `IllegalCharError`), but
`getTokens` drops it (source line 174 lacks a `return`), so `tokenize`
SUCCEEDS, returning only the EOF token.  This theorem evaluates the code at
the failing input. -/
theorem c2_unterminated_string_not_reported :
    tokenize "<t>" "\"abc" =
      .ok [Token.mk .EOF "" (Position.mk "<t>" "\"abc" 4 1 5) (Position.mk "<t>" "\"abc" 4 1 5)] := by
  decide

/-- Claim C3: the claim says no error produced by a stage is ever dropped
and no partial token sequence is returned alongside success.  On the code
this FAILS: on input `"\"abc"` the string scanner produces an error (first
conjunct), yet `getTokens` returns a successful token sequence from which
the string token is missing (second conjunct) -- the error was swallowed by
the missing `return` at source line 174. -/
theorem c3_getStr_error_swallowed :
    getStrLoop (Position.mk "<t>" "\"abc" 0 1 1) (Position.mk "<t>" "\"abc" 1 1 2)
        ['a', 'b', 'c'] "\"" =
      .err (IllegalCharError "expected '\"' but instead reached eof."
          (Position.mk "<t>" "\"abc" 3 1 4) (Position.mk "<t>" "\"abc" 4 1 5))
        (Position.mk "<t>" "\"abc" 4 1 5) [] ∧
    tokenize "<t>" "\"abc" =
      .ok [Token.mk .EOF "" (Position.mk "<t>" "\"abc" 4 1 5) (Position.mk "<t>" "\"abc" 4 1 5)] := by
  constructor <;> decide

/-- Claim C4 (counterexample): the claim says the pipeline on `"-7 / 2"`
succeeds and yields -4.  It is false at that very input: the grammar has no
unary minus (`primary` accepts only Integer/String), so parsing fails with a
`SyntaxError` at the `Minus` token and no value is produced. -/
theorem c4_counterexample :
    run "<t>" "-7 / 2" = .parseError (SyntaxError "Expected a primary"
      (Position.mk "<t>" "-7 / 2" 0 1 1) (Position.mk "<t>" "-7 / 2" 1 1 2)) ∧
    run "<t>" "-7 / 2" ≠ .value (some (.int (-4))) := by decide

/-- Claim C4 (amended): running the pipeline on `"-7 / 2"` fails with a
`SyntaxError` at the leading `Minus` token (no unary minus in the grammar);
the `Slash` operator itself is floor division (Python `//`), truncating
toward negative infinity: evaluating the tree `((0 - 7) / 2)` yields -4,
not -3. -/
theorem c4_amended_floor_div :
    run "<t>" "-7 / 2" = .parseError (SyntaxError "Expected a primary"
      (Position.mk "<t>" "-7 / 2" 0 1 1) (Position.mk "<t>" "-7 / 2" 1 1 2)) ∧
    visit (.binary
      (.binary (.literal (Token.mk .INT "0" nullPos nullPos))
        (Token.mk .MINUS "-" nullPos nullPos)
        (.literal (Token.mk .INT "7" nullPos nullPos)))
      (Token.mk .DIVIDE "/" nullPos nullPos)
      (.literal (Token.mk .INT "2" nullPos nullPos))) none = .ok (some (.int (-4))) := by
  decide

/-- Claim C5: multiplication binds tighter than addition: parsing
`"2 + 3 * 4"` yields the tree `Binary(2, +, Binary(3, *, 4))` and evaluation
yields 14, not 20. -/
theorem c5_precedence :
    (parseSource "<t>" "2 + 3 * 4").map eraseAst =
      .ok (.bin (.lit "2") .PLUS (.bin (.lit "3") .MULTIPLY (.lit "4"))) ∧
    run "<t>" "2 + 3 * 4" = .value (some (.int 14)) ∧
    run "<t>" "2 + 3 * 4" ≠ .value (some (.int 20)) := by
  refine ⟨by decide, by decide, by decide⟩

/-- Claim C6: same-precedence operators associate to the left: parsing
`"8 - 3 - 2"` yields `Binary(Binary(8, -, 3), -, 2)` and evaluation yields
3, not 7. -/
theorem c6_left_assoc :
    (parseSource "<t>" "8 - 3 - 2").map eraseAst =
      .ok (.bin (.bin (.lit "8") .MINUS (.lit "3")) .MINUS (.lit "2")) ∧
    run "<t>" "8 - 3 - 2" = .value (some (.int 3)) ∧
    run "<t>" "8 - 3 - 2" ≠ .value (some (.int 7)) := by
  refine ⟨by decide, by decide, by decide⟩

/-- Claim C7: for every well-formed quoted string with no embedded double
quote, `tokenize` returns exactly one String token (plus EOF) whose lexeme
is the input including both delimiting quotes, and evaluating the Literal
node wrapping that token yields the text with the quotes stripped -- a round
trip from source text to the unquoted text value. -/
theorem c7_string_roundtrip (s : String) (h : ∀ c ∈ s.data, c ≠ '"') :
    ∃ t pEnd,
      tokenize "<t>" ("\"" ++ s ++ "\"") = .ok [t, Token.mk .EOF "" pEnd pEnd] ∧
      t.type = .STR ∧ t.lexical = "\"" ++ s ++ "\"" ∧
      visit (.literal t) none = .ok (some (.str s)) := by
  have hdata : ("\"" ++ s ++ "\"").data = '"' :: (s.data ++ ['"']) := rfl
  have hlen : ("\"" ++ s ++ "\"").length = s.data.length + 2 := by
    rw [string_length_data, hdata]; simp
  have hlex : ((s.data.foldl String.push (String.push "" '"')).push '"') = "\"" ++ s ++ "\"" := by
    apply String.ext
    rw [string_push_data, foldl_push_data, hdata]
    rfl
  have hstrip : stripFirstLast ("\"" ++ s ++ "\"") = s := by
    unfold stripFirstLast
    rw [hdata]
    simp only [List.drop_succ_cons, List.drop_zero, List.dropLast_concat]
  refine ⟨Token.mk .STR ("\"" ++ s ++ "\"") (Position.mk "<t>" ("\"" ++ s ++ "\"") 0 1 1)
      ((s.data.foldl Position.advance
        ((Position.mk "<t>" ("\"" ++ s ++ "\"") 0 1 1).advance '"')).advance '"'),
    ((s.data.foldl Position.advance
        ((Position.mk "<t>" ("\"" ++ s ++ "\"") 0 1 1).advance '"')).advance '"'),
    ?_, rfl, rfl, ?_⟩
  · unfold tokenize
    rw [hlen, hdata, getTokensLoop_quote, getStrLoop_closes s.data h, hlex]
    rfl
  · simp [visit, hstrip]

/-- Witness for C7 at the concrete string `"ab"`. -/
theorem c7_string_roundtrip_witness :
    (∀ c ∈ ("ab").data, c ≠ '"') ∧
    (∃ t pEnd,
      tokenize "<t>" ("\"" ++ "ab" ++ "\"") = .ok [t, Token.mk .EOF "" pEnd pEnd] ∧
      t.type = .STR ∧ t.lexical = "\"" ++ "ab" ++ "\"" ∧
      visit (.literal t) none = .ok (some (.str "ab"))) :=
  ⟨by decide, c7_string_roundtrip "ab" (by decide)⟩

/-- Claim C8: for every `Position` object `p` (a valid reference `r` into
the heap) and every character `c`, advancing the copy of `p` leaves every
field of the original `p` unchanged (first conjunct), while the copy itself
was advanced (second conjunct) -- copying allocates, so there is no aliasing
between the copy and the original. -/
theorem c8_copy_advance_frame (h : List Position) (r : Nat) (c : Char) (hr : r < h.length) :
    (heapAdvance (heapCopy h r).1 (heapCopy h r).2 c).getD r nullPos = h.getD r nullPos ∧
    (heapAdvance (heapCopy h r).1 (heapCopy h r).2 c).getD (heapCopy h r).2 nullPos
      = (h.getD r nullPos).advance c := by
  simp only [heapCopy, heapAdvance, Position.copy_eq]
  constructor
  · rw [List.getD_eq_getElem?_getD, List.getElem?_set_ne (by omega),
      List.getElem?_append_left hr, List.getD_eq_getElem?_getD]
  · rw [List.getD_eq_getElem?_getD, List.getElem?_set_self']
    simp [List.getD_eq_getElem?_getD, List.getElem?_append_right (le_refl h.length)]

/-- Witness for C8 on a one-object heap. -/
theorem c8_copy_advance_frame_witness :
    (0 < ([Position.mk "f" "s" 0 1 1] : List Position).length) ∧
    ((heapAdvance (heapCopy [Position.mk "f" "s" 0 1 1] 0).1
        (heapCopy [Position.mk "f" "s" 0 1 1] 0).2 'x').getD 0 nullPos
        = ([Position.mk "f" "s" 0 1 1] : List Position).getD 0 nullPos ∧
      (heapAdvance (heapCopy [Position.mk "f" "s" 0 1 1] 0).1
        (heapCopy [Position.mk "f" "s" 0 1 1] 0).2 'x').getD
          (heapCopy [Position.mk "f" "s" 0 1 1] 0).2 nullPos
        = (([Position.mk "f" "s" 0 1 1] : List Position).getD 0 nullPos).advance 'x') :=
  ⟨by decide, c8_copy_advance_frame [Position.mk "f" "s" 0 1 1] 0 'x' (by decide)⟩

/-- Claim C9: when a Binary node's operator token is `Plus` and both
operands evaluate to text values (the right one evaluated, as in the source,
with `exprRes` holding the left result), evaluation succeeds and yields the
concatenation of the left text followed by the right text. -/
theorem c9_plus_text_concat (l r : AstNode) (op : Token) (s1 s2 : String)
    (hop : op.type = .PLUS)
    (hl : visit l none = .ok (some (.str s1)))
    (hr : visit r (some (.str s1)) = .ok (some (.str s2))) :
    visit (.binary l op r) none = .ok (some (.str (s1 ++ s2))) := by
  simp [visit, hl, hr, hop, pyAdd]

/-- Witness for C9 on the string literals `"ab"` and `"cd"`. -/
theorem c9_plus_text_concat_witness :
    (Token.mk .PLUS "+" nullPos nullPos).type = .PLUS ∧
    visit (.literal (Token.mk .STR "\"ab\"" nullPos nullPos)) none = .ok (some (.str "ab")) ∧
    visit (.literal (Token.mk .STR "\"cd\"" nullPos nullPos)) (some (.str "ab")) = .ok (some (.str "cd")) ∧
    visit (.binary (.literal (Token.mk .STR "\"ab\"" nullPos nullPos))
      (Token.mk .PLUS "+" nullPos nullPos)
      (.literal (Token.mk .STR "\"cd\"" nullPos nullPos))) none = .ok (some (.str ("ab" ++ "cd"))) :=
  ⟨rfl, by decide, by decide,
    c9_plus_text_concat _ _ _ "ab" "cd" rfl (by decide) (by decide)⟩

/-- Claim C10: for the empty source and every whitespace-only source,
`tokenize` succeeds with only the EOF token (at the final cursor position),
and parsing that sequence fails with a syntax error whose span is exactly
the EOF token's position -- the pipeline never produces a value for an
empty expression. -/
theorem c10_empty_input_rejected (ws : List Char) (h : ∀ c ∈ ws, c ∈ WHITESPACES) :
    ∃ pEnd, tokenize "<t>" (String.mk ws) = .ok [Token.mk .EOF "" pEnd pEnd] ∧
      parseTokens "<t>" (String.mk ws) [Token.mk .EOF "" pEnd pEnd] =
        .error (SyntaxError "Expected a primary" pEnd pEnd) := by
  refine ⟨ws.foldl Position.advance (Position.mk "<t>" (String.mk ws) 0 1 1), ?_, ?_⟩
  · have := getTokensLoop_whitespace ws h ((String.mk ws).length + 1)
      (Position.mk "<t>" (String.mk ws) 0 1 1) [] (by show ws.length < ws.length + 1; omega)
    simpa [tokenize] using this
  · exact parse_single_eof _ _ _ rfl

/-- Witness for C10 on the two-character whitespace source `" \n"`. -/
theorem c10_empty_input_rejected_witness :
    (∀ c ∈ [' ', '\n'], c ∈ WHITESPACES) ∧
    (∃ pEnd, tokenize "<t>" (String.mk [' ', '\n']) = .ok [Token.mk .EOF "" pEnd pEnd] ∧
      parseTokens "<t>" (String.mk [' ', '\n']) [Token.mk .EOF "" pEnd pEnd] =
        .error (SyntaxError "Expected a primary" pEnd pEnd)) :=
  ⟨by decide, c10_empty_input_rejected [' ', '\n'] (by decide)⟩

end PLang
